import Mathlib

/-!
Verification of the SmartKart scanning and session logic.

This file gives a shallow embedding of the core state machines of the
repository and proves properties about them:

* `src/src/barcode/scanner.py` — the multi-frame barcode verifier
  (`BarcodeScanner.verify_barcode`): the scanner state is the quadruple of
  mutable fields read and written by `verify_barcode`, and the method
  becomes a state-transition function on it.
* `src/src/web_app.py` — the web session: the module-level mutable state
  (`current_mode`, `shopping_cart`, `cart_index`, `last_scanned_product`,
  `processed_barcodes`, `confirm_action`) becomes a record, and the action
  helpers and HTTP handlers become transition functions.  External calls
  (speech, resolver lookup, save/track) and the `state_lock`
  acquire/release boundaries are recorded as an event trace so that the
  locking discipline is checkable.
* `src/src/database/product_lookup.py` — `lookup_barcode`, as a function
  of the external HTTP outcome.
-/

namespace SmartKart

/-! ## Barcode verifier (src/src/barcode/scanner.py) -/

/-- A single decoded barcode in a frame: `barcode.data.decode('utf-8')`
and `barcode.type` from pyzbar. -/
structure Detection where
  text : String
  symbology : String
deriving DecidableEq

/-- The mutable fields of `BarcodeScanner` that `verify_barcode` reads and
writes: `last_barcode`, `last_barcode_time`, `consecutive_detections`,
`no_detection_count`.  Time is a `Nat` supplied by the caller (the Python
code stores `time.time()`; `verify_barcode` only ever writes this field,
it never reads it). -/
structure ScannerState where
  last_barcode : Option String
  last_barcode_time : Nat
  consecutive_detections : Nat
  no_detection_count : Nat
deriving DecidableEq

/-- `self.min_consecutive_detections = 3` in `BarcodeScanner.__init__`. -/
def min_consecutive_detections : Nat := 3

/-- `self.max_no_detection_frames = 5` in `BarcodeScanner.__init__`. -/
def max_no_detection_frames : Nat := 5

/-- Scanner state as set up by `BarcodeScanner.__init__`. -/
def initScanner : ScannerState :=
  { last_barcode := none, last_barcode_time := 0,
    consecutive_detections := 0, no_detection_count := 0 }

/-- The `for barcode in barcodes:` loop of `verify_barcode`
(scanner.py lines 291-319).  A barcode matching `last_barcode` resets
`no_detection_count`, increments `consecutive_detections` and, once the
count reaches `min_consecutive_detections`, resets the count to 0 and
returns the verified barcode (early `return`).  A non-matching barcode
replaces the tracked candidate with count 1 and the loop continues. -/
def verify_loop : ScannerState → Nat → List Detection → ScannerState × Option Detection
  | s, _, [] => (s, none)
  | s, now, b :: rest =>
    if s.last_barcode = some b.text then
      let s1 : ScannerState :=
        { s with no_detection_count := 0,
                 consecutive_detections := s.consecutive_detections + 1 }
      if min_consecutive_detections ≤ s1.consecutive_detections then
        ({ s1 with consecutive_detections := 0 }, some b)
      else
        verify_loop s1 now rest
    else
      let s1 : ScannerState :=
        { s with last_barcode := some b.text, last_barcode_time := now,
                 consecutive_detections := 1, no_detection_count := 0 }
      verify_loop s1 now rest

/-- `BarcodeScanner.verify_barcode` (scanner.py lines 261-322), as a
function of the already-decoded detections of the current frame.  On an
empty frame the no-detection counter is incremented and, when it reaches
`max_no_detection_frames`, the candidate and all counters are cleared. -/
def verify_barcode (s : ScannerState) (now : Nat) (barcodes : List Detection) :
    ScannerState × Option Detection :=
  match barcodes with
  | [] =>
    let s1 := { s with no_detection_count := s.no_detection_count + 1 }
    if max_no_detection_frames ≤ s1.no_detection_count then
      ({ s1 with last_barcode := none, consecutive_detections := 0,
                 no_detection_count := 0 }, none)
    else
      (s1, none)
  | b :: rest => verify_loop s now (b :: rest)

/-- Run the verifier over a sequence of frames (the capture loop calling
`verify_barcode` once per frame, in arrival order), collecting every
emitted verified scan. -/
def run_verify : ScannerState → List (List Detection) → ScannerState × List Detection
  | s, [] => (s, [])
  | s, ds :: rest =>
    let r1 := verify_barcode s 0 ds
    let r2 := run_verify r1.1 rest
    (r2.1, (match r1.2 with | some d => [d] | none => []) ++ r2.2)

/-- A continuous steady hold: `n` consecutive frames each containing
exactly the single code `x` (symbology `t`). -/
def hold_frames (x t : String) (n : Nat) : List (List Detection) :=
  List.replicate n [⟨x, t⟩]

/-- A strict alternation of two codes: frame 1 shows `x`, frame 2 shows
`y`, frame 3 shows `x` again, and so on, for `n` frames. -/
def alt_frames (x y t : String) : Nat → List (List Detection)
  | 0 => []
  | n + 1 => [⟨x, t⟩] :: alt_frames y x t n

/-! ## Product lookup (src/src/database/product_lookup.py) -/

/-- The dictionary returned by `ProductInfoLookup.lookup_barcode`, with the
fields the web session reads (`image_url`, `nutrition_grades` and the
formatted timestamp string are never read downstream and are omitted). -/
structure ProductData where
  found : Bool
  barcode : String
  product_name : String
  brand : String
  ingredients_text : String
  allergens : List String
  message : Option String
deriving DecidableEq

/-- The three ways the Open Food Facts HTTP request can go, from the point
of view of `lookup_barcode`: a response with `status == 1` (carrying the
optional product fields), a response with any other status, or a
`requests.RequestException` (network error / timeout). -/
inductive LookupOutcome
  | apiSuccess (product_name : Option String) (brands : Option String)
      (ingredients_text : Option String) (allergens_tags : List String)
  | apiNotFound
  | requestException (err : String)
deriving DecidableEq

/-- Allergen clean-up in `lookup_barcode`: an `en:` language tag stripped
from the front of each allergen tag. -/
def clean_allergen (a : String) : String :=
  if a.startsWith "en:" then a.drop 3 else a

/-- `ProductInfoLookup.lookup_barcode` (product_lookup.py lines 106-168) as
a function of the HTTP outcome.  `.get(key, default)` accesses on the JSON
become `Option.getD`.  A `RequestException` is caught and returned as a
`found = False` dictionary with `product_name = "Error"` — the not-found
dictionary instead carries `product_name = "Product not found"`. -/
def lookup_barcode (barcode : String) (outcome : LookupOutcome) : ProductData :=
  match outcome with
  | .apiSuccess pname pbrand ping ptags =>
    { found := true, barcode := barcode,
      product_name := pname.getD "Unknown product",
      brand := pbrand.getD "Unknown brand",
      ingredients_text := ping.getD "Ingredients not available",
      allergens := ptags.map clean_allergen,
      message := none }
  | .apiNotFound =>
    { found := false, barcode := barcode,
      product_name := "Product not found", brand := "Unknown",
      ingredients_text := "", allergens := [],
      message := some "Product not found in database" }
  | .requestException e =>
    { found := false, barcode := barcode,
      product_name := "Error", brand := "Unknown",
      ingredients_text := "", allergens := [],
      message := some ("Error: " ++ e) }

/-! ## Web session (src/src/web_app.py)

The module-level mutable state of web_app.py is gathered into `AppState`,
and every state-mutating code path becomes a function
`AppState → AppState × trace`.  The trace records the external calls the
path performs (speech, resolver lookup, save/track of product info) and —
for the HTTP handlers and the capture-loop barcode processing, which are
the code that takes `state_lock` — the lock acquire/release boundaries. -/

/-- The values of `current_mode` (web_app.py uses the strings `"SCANNING"`,
`"ITEM_SCANNED"`, `"CART_REVIEW"`; the spec calls the middle one
`ITEM_PENDING`). -/
inductive Mode
  | SCANNING
  | ITEM_SCANNED
  | CART_REVIEW
deriving DecidableEq

/-- A scanned-item dictionary as built in `generate_frames`
(web_app.py lines 329-336 and 352-359): keys `barcode`, `name`, `brand`,
`allergens`, `ingredients`, `timestamp`. -/
structure Item where
  barcode : String
  name : String
  brand : String
  allergens : List String
  ingredients : String
  timestamp : Nat
deriving DecidableEq

instance : Inhabited Item := ⟨⟨"", "", "", [], "", 0⟩⟩

/-- The values of the `confirm_action` global (`'REMOVE'` / `'CLEAR'`). -/
inductive ConfirmKind
  | REMOVE
  | CLEAR
deriving DecidableEq

/-- An external call performed by a session operation: a (blocking)
`speech.speak`/`_speak` call, the `product_db.lookup_barcode` network
call, or the `save_product_info` / `track_product` file writes. -/
inductive ExtCall
  | speakCall (text : String)
  | lookupCall (barcode : String)
  | saveCall (barcode : String)
  | trackCall (barcode : String)
deriving DecidableEq

/-- A traced event: acquiring `state_lock`, releasing it, or performing an
external call. -/
inductive Ev
  | acq
  | rel
  | ext (c : ExtCall)
deriving DecidableEq

/-- The module-level mutable session state of web_app.py:
`current_mode`, `shopping_cart`, `cart_index` (−1 when no item is in
focus), `last_scanned_product`, `processed_barcodes` (a set, kept here as
a duplicate-free list) and `confirm_action`. -/
structure AppState where
  current_mode : Mode
  shopping_cart : List Item
  cart_index : Int
  last_scanned_product : Option Item
  processed_barcodes : List String
  confirm_action : Option ConfirmKind
deriving DecidableEq

/-- The initial values of the globals at module load. -/
def initState : AppState :=
  { current_mode := .SCANNING, shopping_cart := [], cart_index := -1,
    last_scanned_product := none, processed_barcodes := [],
    confirm_action := none }

/-- The spoken texts of a trace of external calls, in order. -/
def spoken (evs : List ExtCall) : List String :=
  evs.filterMap fun e =>
    match e with
    | .speakCall t => some t
    | _ => none

/-- The spoken texts of a full event trace, in order. -/
def spokenEv (evs : List Ev) : List String :=
  evs.filterMap fun e =>
    match e with
    | .ext (.speakCall t) => some t
    | _ => none

/-- `_add_item_to_cart` (web_app.py lines 737-771).  Rejects when the mode
is not `ITEM_SCANNED` or there is no scanned product; rejects a pending
item whose `name` is `'Product Not Found'` (how the not-found scan path
marks it); otherwise appends a copy of the item to the cart, saves and
tracks it, announces the addition, switches back to `SCANNING` and clears
`last_scanned_product`. -/
def add_item_to_cart (s : AppState) : AppState × List ExtCall :=
  match s.last_scanned_product with
  | none => (s, [.speakCall "No item scanned to add."])
  | some item =>
    if s.current_mode ≠ .ITEM_SCANNED then
      (s, [.speakCall "No item scanned to add."])
    else if item.name = "Product Not Found" then
      (s, [.speakCall "Cannot add unknown product."])
    else
      ({ s with shopping_cart := s.shopping_cart ++ [item],
                current_mode := .SCANNING,
                last_scanned_product := none },
       [.saveCall item.barcode, .trackCall item.barcode,
        .speakCall ("Added " ++ item.name ++ " to cart.")])

/-- `_speak_allergens` (web_app.py lines 773-785): read-only announcement
of the pending item's allergens. -/
def speak_allergens (s : AppState) : AppState × List ExtCall :=
  match s.last_scanned_product with
  | none => (s, [])
  | some item =>
    if s.current_mode ≠ .ITEM_SCANNED then
      (s, [])
    else if item.allergens ≠ [] then
      (s, [.speakCall ("Allergens: " ++ String.intercalate ", " item.allergens ++ ".")])
    else
      (s, [.speakCall "No known allergens listed."])

/-- `_speak_ingredients` (web_app.py lines 787-805): read-only announcement
of the ingredients of the cart item under the cursor. -/
def speak_ingredients (s : AppState) : AppState × List ExtCall :=
  if s.current_mode ≠ .CART_REVIEW ∨ s.shopping_cart = [] ∨ s.cart_index < 0 then
    (s, [])
  else
    match s.shopping_cart.get? s.cart_index.toNat with
    | none => (s, [.speakCall "Error retrieving item information."])
    | some item =>
      if item.ingredients ≠ "" ∧ item.ingredients ≠ "Ingredients not available" then
        (s, [.speakCall ("Ingredients: " ++ item.ingredients)])
      else
        (s, [.speakCall "Ingredients information not available."])

/-- The announce-and-recover tail of `_navigate_cart` (web_app.py lines
822-831): announce the item at the new index, or — on an `IndexError` —
announce an error and reset the index. -/
def navigate_announce (s : AppState) : AppState × List ExtCall :=
  match s.shopping_cart.get? s.cart_index.toNat with
  | some item =>
    (s, [.speakCall ("Item " ++ toString (s.cart_index + 1) ++ ": " ++ item.name)])
  | none =>
    ({ s with cart_index := if 0 < s.shopping_cart.length then 0 else -1 },
     [.speakCall "Error retrieving item name."])

/-- `_navigate_cart` (web_app.py lines 807-832): in `CART_REVIEW` with a
non-empty cart, move the cursor by one in either direction with Python's
`%` (which, like `Int.emod` for a positive modulus, wraps at both ends),
then announce the item now at the cursor. -/
def navigate_cart (s : AppState) (direction : String) : AppState × List ExtCall :=
  if s.current_mode ≠ .CART_REVIEW ∨ s.shopping_cart = [] then
    (s, [.speakCall "Cart is empty."])
  else
    let cart_len : Int := s.shopping_cart.length
    if direction = "next" then
      navigate_announce { s with cart_index := (s.cart_index + 1) % cart_len }
    else if direction = "previous" then
      navigate_announce { s with cart_index := (s.cart_index - 1) % cart_len }
    else
      (s, [])

/-- `_enter_cart_mode` (web_app.py lines 834-849): switch to `CART_REVIEW`;
cursor to 0 and announce the first item when the cart is non-empty,
otherwise cursor to −1.  Note it does not touch `last_scanned_product`. -/
def enter_cart_mode (s : AppState) : AppState × List ExtCall :=
  match s.shopping_cart with
  | [] =>
    ({ s with current_mode := .CART_REVIEW, cart_index := -1 },
     [.speakCall "Cart is empty."])
  | item :: _ =>
    ({ s with current_mode := .CART_REVIEW, cart_index := 0 },
     [.speakCall ("Cart View. " ++ toString s.shopping_cart.length ++
                  " items. Item 1: " ++ item.name ++ ".")])

/-- `_exit_cart_mode` (web_app.py lines 851-858): back to `SCANNING`,
cursor reset.  Note it does not touch `last_scanned_product` either. -/
def exit_cart_mode (s : AppState) : AppState × List ExtCall :=
  ({ s with current_mode := .SCANNING, cart_index := -1 },
   [.speakCall "Exiting Cart View."])

/-- `_cancel_scan` (web_app.py lines 860-870): discard the pending item
and return to `SCANNING`; a no-op outside `ITEM_SCANNED`. -/
def cancel_scan (s : AppState) : AppState × List ExtCall :=
  if s.current_mode ≠ .ITEM_SCANNED then
    (s, [])
  else
    ({ s with last_scanned_product := none, current_mode := .SCANNING },
     [.speakCall "Scan cancelled."])

/-- `_reset_confirm_state` (web_app.py lines 879-884): cancel the timer
and clear the pending confirmation. -/
def reset_confirm_state (s : AppState) : AppState :=
  { s with confirm_action := none }

/-- `_speak_current_item_name` (web_app.py lines 1042-1060), with the
default `announce_index=True`. -/
def speak_current_item_name (s : AppState) : AppState × List ExtCall :=
  if s.current_mode ≠ .CART_REVIEW ∨ s.shopping_cart = [] ∨ s.cart_index < 0 then
    (s, [])
  else
    match s.shopping_cart.get? s.cart_index.toNat with
    | some item =>
      (s, [.speakCall ("Item " ++ toString (s.cart_index + 1) ++ ": " ++ item.name)])
    | none =>
      (s, [.speakCall "Error retrieving item name."])

/-- `_remove_cart_item` (web_app.py lines 1063-1095): pop the item at the
cursor, announce the removal, then either mark the cart empty (cursor −1)
or clamp the cursor to the new last index and announce the item now at
the cursor. -/
def remove_cart_item (s : AppState) : AppState × List ExtCall :=
  if s.current_mode ≠ .CART_REVIEW ∨ s.shopping_cart = [] ∨ s.cart_index < 0 then
    (s, [])
  else
    match s.shopping_cart.get? s.cart_index.toNat with
    | none => (s, [.speakCall "Error removing item."])
    | some removed_item =>
      let s1 := { s with shopping_cart := s.shopping_cart.eraseIdx s.cart_index.toNat }
      let ev0 := [ExtCall.speakCall ("Removed " ++ removed_item.name ++ ".")]
      let cart_len : Int := s1.shopping_cart.length
      if cart_len = 0 then
        ({ s1 with cart_index := -1 }, ev0 ++ [.speakCall "Cart is now empty."])
      else
        let s2 := if cart_len ≤ s1.cart_index then { s1 with cart_index := cart_len - 1 }
                  else s1
        let r := speak_current_item_name s2
        (r.1, ev0 ++ r.2)

/-- `_clear_cart` (web_app.py lines 1097-1111): empty the cart, reset the
cursor and return to `SCANNING`. -/
def clear_cart (s : AppState) : AppState × List ExtCall :=
  if s.shopping_cart = [] then
    (s, [.speakCall "Cart is already empty."])
  else
    ({ s with shopping_cart := [], cart_index := -1, current_mode := .SCANNING },
     [.speakCall "Cart cleared."])

/-- `'REMOVE'.capitalize()` / `'CLEAR'.capitalize()` as used in the
cancellation announcement of `handle_button_press`. -/
def capitalized : ConfirmKind → String
  | .REMOVE => "Remove"
  | .CLEAR => "Clear"

/-- The `--- Normal Button Handling ---` block of `handle_button_press`
(web_app.py lines 923-998): dispatch on the button id and the current
mode.  `BACK_CANCEL_DELETE` in `CART_REVIEW` arms a `REMOVE`
confirmation, long-pressed `HELP_CLEAR` in `CART_REVIEW` arms a `CLEAR`
confirmation; both start the confirmation timer (modelled as the
`confirm_timeout` session event below). -/
def normal_button (s : AppState) (button_id : String) (is_long_press : Bool) :
    AppState × List ExtCall :=
  if button_id = "SELECT_CONFIRM" then
    if s.current_mode = .ITEM_SCANNED then add_item_to_cart s
    else if s.current_mode = .CART_REVIEW then speak_ingredients s
    else (s, [.speakCall "Please scan an item first."])
  else if button_id = "INFO_ALLERGENS" then
    if s.current_mode = .ITEM_SCANNED then speak_allergens s
    else if s.current_mode = .CART_REVIEW then
      (s, [.speakCall "Cannot get allergen info while in cart view."])
    else (s, [.speakCall "Please scan an item to get allergen info."])
  else if button_id = "BACK_CANCEL_DELETE" then
    if s.current_mode = .ITEM_SCANNED then cancel_scan s
    else if s.current_mode = .CART_REVIEW then
      if s.shopping_cart = [] then (s, [.speakCall "Cart is empty."])
      else if s.shopping_cart ≠ [] ∧ 0 ≤ s.cart_index then
        match s.shopping_cart.get? s.cart_index.toNat with
        | some item =>
          ({ s with confirm_action := some .REMOVE },
           [.speakCall ("Remove " ++ item.name ++
                        "? Press the Back/Cancel button again to confirm.")])
        | none => (s, [.speakCall "Error selecting item to remove."])
      else (s, [.speakCall "Cart is empty or no item selected."])
    else (s, [])
  else if button_id = "MODE_TOGGLE" then
    if s.current_mode = .CART_REVIEW then exit_cart_mode s else enter_cart_mode s
  else if button_id = "UNUSED_B5" then
    (s, [.speakCall "Button 5 not assigned."])
  else if button_id = "HELP_CLEAR" then
    if is_long_press ∧ s.current_mode = .CART_REVIEW then
      if s.shopping_cart = [] then (s, [.speakCall "Cart is already empty."])
      else
        ({ s with confirm_action := some .CLEAR },
         [.speakCall "Clear entire cart? Press this button again to confirm."])
    else if is_long_press then
      (s, [.speakCall "Clear cart only available in Cart View."])
    else if s.current_mode = .SCANNING then
      (s, [.speakCall "Scanning Mode. Scan item or press Mode button for Cart."])
    else if s.current_mode = .ITEM_SCANNED then
      let item_name := match s.last_scanned_product with
        | some item => item.name
        | none => "item"
      (s, [.speakCall ("Item Scanned: " ++ item_name ++
           ". Press Confirm to Add, Back to Cancel, Mode for Cart, or Button 2 for Allergens.")])
    else
      (s, [.speakCall
        "Cart View. Use dial to navigate. Press Confirm for details, Back to remove, Mode to exit."])
  else
    (s, [.speakCall "Unknown button pressed."])

/-- `handle_button_press` (web_app.py lines 886-1000).  The whole body runs
under `with state_lock`.  If a confirmation is pending it is always reset
first; a matching button (`BACK_CANCEL` for `REMOVE`, `HELP_CLEAR` for
`CLEAR`) performs the destructive operation and returns early; any other
button announces the cancellation and then falls through to the normal
handling. -/
def handle_button_press (s : AppState) (button_id : String) (is_long_press : Bool) :
    AppState × List Ev :=
  let inner : AppState × List ExtCall :=
    match s.confirm_action with
    | some pending =>
      let s0 := reset_confirm_state s
      if pending = .REMOVE ∧ button_id = "BACK_CANCEL" then
        remove_cart_item s0
      else if pending = .CLEAR ∧ button_id = "HELP_CLEAR" then
        clear_cart s0
      else
        let r := normal_button s0 button_id is_long_press
        (r.1, .speakCall (capitalized pending ++ " cancelled.") :: r.2)
    | none => normal_button s button_id is_long_press
  (inner.1, Ev.acq :: inner.2.map Ev.ext ++ [Ev.rel])

/-- `handle_dial_change` (web_app.py lines 1002-1017): under `state_lock`,
navigate the cart in `CART_REVIEW`, otherwise announce that dial
navigation is unavailable.  It never touches `confirm_action`. -/
def handle_dial_change (s : AppState) (direction : String) : AppState × List Ev :=
  let inner : AppState × List ExtCall :=
    if s.current_mode = .CART_REVIEW then navigate_cart s direction
    else (s, [.speakCall "Dial navigation only available in Cart View."])
  (inner.1, Ev.acq :: inner.2.map Ev.ext ++ [Ev.rel])

/-- Processing of one detected barcode by the capture loop in
`generate_frames` (web_app.py lines 275-365).  The first `with state_lock`
block (lines 280-296) handles the non-`SCANNING` modes: a barcode not yet
in `processed_barcodes` is acknowledged once and recorded, everything else
is skipped.  In `SCANNING` mode that block does nothing; then — outside
the lock — a barcode already in `processed_barcodes` is skipped, and
otherwise a second `with state_lock` block (lines 301-364) checks the cart
for a duplicate, performs the resolver lookup *inside the lock*, installs
the pending item (name `'Product Not Found'` when the lookup did not find
the product) and announces the result, still inside the lock. -/
def process_scan_barcode (s : AppState) (barcode_data : String)
    (outcome : LookupOutcome) (now : Nat) : AppState × List Ev :=
  if s.current_mode = .ITEM_SCANNED then
    if barcode_data ∉ s.processed_barcodes then
      let item_name := match s.last_scanned_product with
        | some item => item.name
        | none => "the previous item"
      ({ s with processed_barcodes := s.processed_barcodes ++ [barcode_data] },
       [Ev.acq, Ev.ext (.speakCall ("Waiting for action on " ++ item_name ++ ".")), Ev.rel])
    else (s, [Ev.acq, Ev.rel])
  else if s.current_mode = .CART_REVIEW then
    if barcode_data ∉ s.processed_barcodes then
      ({ s with processed_barcodes := s.processed_barcodes ++ [barcode_data] },
       [Ev.acq, Ev.ext (.speakCall "Currently in Cart View. Exit cart to scan."), Ev.rel])
    else (s, [Ev.acq, Ev.rel])
  else
    if barcode_data ∉ s.processed_barcodes then
      match s.shopping_cart.find? (fun item => item.barcode = barcode_data) with
      | some item =>
        ({ s with processed_barcodes := s.processed_barcodes ++ [barcode_data] },
         [Ev.acq, Ev.rel, Ev.acq,
          Ev.ext (.speakCall (item.name ++ " is already in the cart.")), Ev.rel])
      | none =>
        let s1 := { s with processed_barcodes := s.processed_barcodes ++ [barcode_data] }
        let product_data := lookup_barcode barcode_data outcome
        if product_data.found then
          ({ s1 with
               last_scanned_product := some
                 { barcode := barcode_data,
                   name := product_data.product_name,
                   brand := product_data.brand,
                   allergens := product_data.allergens,
                   ingredients := product_data.ingredients_text,
                   timestamp := now },
               current_mode := .ITEM_SCANNED },
           [Ev.acq, Ev.rel, Ev.acq, Ev.ext (.lookupCall barcode_data),
            Ev.ext (.speakCall ("Found " ++ product_data.product_name ++ " by " ++
                                product_data.brand)),
            Ev.rel])
        else
          ({ s1 with
               last_scanned_product := some
                 { barcode := barcode_data, name := "Product Not Found", brand := "",
                   allergens := [], ingredients := "", timestamp := now },
               current_mode := .ITEM_SCANNED },
           [Ev.acq, Ev.rel, Ev.acq, Ev.ext (.lookupCall barcode_data),
            Ev.ext (.speakCall ("Product not found for barcode " ++ barcode_data)),
            Ev.rel])
    else
      (s, [Ev.acq, Ev.rel])

/-- One external stimulus to the shared session: a button press, a dial
change, one barcode detection processed by the capture loop (with the
resolver outcome for it), or the confirmation timer firing
(`threading.Timer(CONFIRM_TIMEOUT, _reset_confirm_state)`). -/
inductive SessionEvent
  | button (button_id : String) (is_long_press : Bool)
  | dial (direction : String)
  | scan (barcode_data : String) (outcome : LookupOutcome) (now : Nat)
  | confirm_timeout
deriving DecidableEq

/-- Apply one session event to the state. -/
def session_step (s : AppState) : SessionEvent → AppState × List Ev
  | .button b long => handle_button_press s b long
  | .dial d => handle_dial_change s d
  | .scan b oc now => process_scan_barcode s b oc now
  | .confirm_timeout => (reset_confirm_state s, [])

/-- Apply a sequence of session events, concatenating the event traces. -/
def run_session : AppState → List SessionEvent → AppState × List Ev
  | s, [] => (s, [])
  | s, e :: rest =>
    let r1 := session_step s e
    let r2 := run_session r1.1 rest
    (r2.1, r1.2 ++ r2.2)

/-- The session states reachable from the initial state by session
events. -/
inductive Reachable : AppState → Prop
  | init : Reachable initState
  | step (s : AppState) (e : SessionEvent) : Reachable s → Reachable (session_step s e).1

/-- Is an event an external call? -/
def isExternal : Ev → Bool
  | .ext _ => true
  | _ => false

/-- `true` when some external call in the trace happens while the lock
depth is positive (the lock is held across an external call). -/
def externalHeldUnderLock : Nat → List Ev → Bool
  | _, [] => false
  | d, .acq :: rest => externalHeldUnderLock (d + 1) rest
  | d, .rel :: rest => externalHeldUnderLock (d - 1) rest
  | d, e :: rest => (isExternal e && decide (0 < d)) || externalHeldUnderLock d rest

/-- `true` when every external call in the trace happens while the lock
depth is positive. -/
def allExternalsUnderLock : Nat → List Ev → Bool
  | _, [] => true
  | d, .acq :: rest => allExternalsUnderLock (d + 1) rest
  | d, .rel :: rest => allExternalsUnderLock (d - 1) rest
  | d, e :: rest => (!isExternal e || decide (0 < d)) && allExternalsUnderLock d rest

/-! ## Concrete fixtures used in witnesses and counterexamples -/

/-- Resolver outcome: the catalog finds product `Apple` by `Acme`. -/
def outcomeApple : LookupOutcome := .apiSuccess (some "Apple") (some "Acme") none []

/-- Resolver outcome: the catalog finds product `Bread` by `Baker`. -/
def outcomeBread : LookupOutcome := .apiSuccess (some "Bread") (some "Baker") none []

/-- The item the scan path builds for barcode `111` and `outcomeApple` at
time 0. -/
def itemApple : Item :=
  { barcode := "111", name := "Apple", brand := "Acme", allergens := [],
    ingredients := "Ingredients not available", timestamp := 0 }

/-- The item the scan path builds for barcode `222` and `outcomeBread` at
time 1. -/
def itemBread : Item :=
  { barcode := "222", name := "Bread", brand := "Baker", allergens := [],
    ingredients := "Ingredients not available", timestamp := 1 }

/-- A `CART_REVIEW` state with cart `[Apple, Bread]`, the cursor on
`Bread`, and an armed `REMOVE` confirmation — the spec scenario
"cart = [A, B], cursor = 1, requestRemove()". -/
def review_remove_state : AppState :=
  { current_mode := .CART_REVIEW, shopping_cart := [itemApple, itemBread],
    cart_index := 1, last_scanned_product := none,
    processed_barcodes := ["111", "222"], confirm_action := some .REMOVE }

/-- A `CART_REVIEW` state with a three-item cart and the cursor on the
last item — the spec wrap scenario for cart navigation. -/
def review_three_state : AppState :=
  { current_mode := .CART_REVIEW,
    shopping_cart := [itemApple, itemBread,
      { barcode := "333", name := "Cola", brand := "Fizz", allergens := [],
        ingredients := "water", timestamp := 2 }],
    cart_index := 2, last_scanned_product := none,
    processed_barcodes := ["111", "222", "333"], confirm_action := none }

/-- Events: scan Apple (goes pending), then scan Bread while not scanning
(ignored and acknowledged once), then add Apple to the cart (mode back to
`SCANNING`), then scan Cola (pending again). -/
def ignored_code_events : List SessionEvent :=
  [.scan "111" outcomeApple 0,
   .scan "222" outcomeBread 1,
   .button "SELECT_CONFIRM" false,
   .scan "333" (.apiSuccess (some "Cola") (some "Fizz") none []) 2]

/-- Events: build a two-item cart `[Apple, Bread]`, enter cart review, arm
a `REMOVE` confirmation on the first item, then turn the dial one step. -/
def dial_after_arm_events : List SessionEvent :=
  [.scan "111" outcomeApple 0,
   .button "SELECT_CONFIRM" false,
   .scan "222" outcomeBread 1,
   .button "SELECT_CONFIRM" false,
   .button "MODE_TOGGLE" false,
   .button "BACK_CANCEL_DELETE" false,
   .dial "next"]

/-! ## Verifier lemmas -/

/-- During a steady hold of code `x`, starting from a state already
tracking `x` with fewer than `min_consecutive_detections` consecutive
detections, the verifier emits on every frame that brings the count up to
the threshold, re-arming immediately: over `n` further single-`x` frames
it emits `(c + n) / min_consecutive_detections` times. -/
theorem run_verify_hold (x t : String) :
    ∀ (n : Nat) (s : ScannerState), s.last_barcode = some x →
      s.consecutive_detections < min_consecutive_detections →
      (run_verify s (hold_frames x t n)).2 =
        List.replicate ((s.consecutive_detections + n) / min_consecutive_detections)
          ⟨x, t⟩ := by
  intro n
  induction n with
  | zero =>
    intro s hl hc
    simp [hold_frames, run_verify, Nat.div_eq_of_lt hc]
  | succ n ih =>
    intro s hl hc
    rw [hold_frames, List.replicate_succ]
    simp only [run_verify, verify_barcode, verify_loop, hl, if_pos rfl]
    by_cases h3 : min_consecutive_detections ≤ s.consecutive_detections + 1
    · have hc2 : s.consecutive_detections = 2 := by
        simp only [min_consecutive_detections] at hc h3; omega
      rw [if_pos h3]
      have h := ih { last_barcode := some x, last_barcode_time := s.last_barcode_time,
                     consecutive_detections := 0, no_detection_count := 0 } rfl
                 (by simp [min_consecutive_detections])
      simp only [hold_frames, Nat.zero_add] at h
      rw [show (s.consecutive_detections + (n + 1)) / min_consecutive_detections
            = n / min_consecutive_detections + 1 by
        simp only [min_consecutive_detections, hc2]; omega]
      rw [List.replicate_succ]
      simpa [hl] using h
    · rw [if_neg h3]
      have h := ih { last_barcode := some x, last_barcode_time := s.last_barcode_time,
                     consecutive_detections := s.consecutive_detections + 1,
                     no_detection_count := 0 } rfl
                 (by simp only [min_consecutive_detections] at h3 ⊢; omega)
      simp only [hold_frames] at h
      rw [show s.consecutive_detections + (n + 1)
            = s.consecutive_detections + 1 + n from by omega]
      simpa [verify_loop, hl] using h

/-- Stepping the verifier on a single-`x` frame from a state not tracking
`x` replaces the candidate and emits nothing. -/
theorem verify_barcode_switch (x t : String) (now : Nat) (s : ScannerState)
    (h : s.last_barcode ≠ some x) :
    verify_barcode s now [⟨x, t⟩]
      = ({ s with last_barcode := some x, last_barcode_time := now,
                  consecutive_detections := 1, no_detection_count := 0 }, none) := by
  simp only [verify_barcode, verify_loop]
  rw [if_neg (by simpa using h)]

/-! ## Session lemmas -/

/-- `_speak_allergens` never mutates the session state. -/
theorem speak_allergens_state (s : AppState) : (speak_allergens s).1 = s := by
  unfold speak_allergens
  repeat' split
  all_goals rfl

/-- `_speak_ingredients` never mutates the session state. -/
theorem speak_ingredients_state (s : AppState) : (speak_ingredients s).1 = s := by
  unfold speak_ingredients
  repeat' split
  all_goals rfl

/-- `_speak_current_item_name` never mutates the session state. -/
theorem speak_current_item_name_state (s : AppState) :
    (speak_current_item_name s).1 = s := by
  unfold speak_current_item_name
  repeat' split
  all_goals rfl

/-- The announce step of `_navigate_cart` changes at most the cart
cursor. -/
theorem navigate_announce_fields (s : AppState) :
    (navigate_announce s).1.current_mode = s.current_mode ∧
    (navigate_announce s).1.shopping_cart = s.shopping_cart ∧
    (navigate_announce s).1.last_scanned_product = s.last_scanned_product ∧
    (navigate_announce s).1.processed_barcodes = s.processed_barcodes ∧
    (navigate_announce s).1.confirm_action = s.confirm_action := by
  unfold navigate_announce
  cases hget : s.shopping_cart.get? s.cart_index.toNat <;> simp [hget]

/-- `_navigate_cart` changes at most the cart cursor. -/
theorem navigate_cart_fields (s : AppState) (d : String) :
    (navigate_cart s d).1.current_mode = s.current_mode ∧
    (navigate_cart s d).1.shopping_cart = s.shopping_cart ∧
    (navigate_cart s d).1.last_scanned_product = s.last_scanned_product ∧
    (navigate_cart s d).1.processed_barcodes = s.processed_barcodes ∧
    (navigate_cart s d).1.confirm_action = s.confirm_action := by
  unfold navigate_cart
  split
  · simp
  · split
    · exact navigate_announce_fields _
    · split
      · exact navigate_announce_fields _
      · simp

/-- `_remove_cart_item` changes at most the cart and the cursor. -/
theorem remove_cart_item_fields (s : AppState) :
    (remove_cart_item s).1.current_mode = s.current_mode ∧
    (remove_cart_item s).1.last_scanned_product = s.last_scanned_product ∧
    (remove_cart_item s).1.processed_barcodes = s.processed_barcodes ∧
    (remove_cart_item s).1.confirm_action = s.confirm_action := by
  unfold remove_cart_item
  split
  · simp
  · cases hget : s.shopping_cart.get? s.cart_index.toNat with
    | none => simp [hget]
    | some it =>
      simp only [hget]
      split
      · simp
      · split <;> simp [speak_current_item_name_state]

/-- `_add_item_to_cart` preserves the invariant that a pending item exists
whenever the mode is `ITEM_SCANNED`. -/
theorem add_item_to_cart_inv (s : AppState)
    (h : s.current_mode = .ITEM_SCANNED → s.last_scanned_product ≠ none) :
    (add_item_to_cart s).1.current_mode = .ITEM_SCANNED →
      (add_item_to_cart s).1.last_scanned_product ≠ none := by
  unfold add_item_to_cart
  repeat' split
  all_goals first | exact h | simp

/-- `_cancel_scan` preserves the pending-item invariant. -/
theorem cancel_scan_inv (s : AppState)
    (h : s.current_mode = .ITEM_SCANNED → s.last_scanned_product ≠ none) :
    (cancel_scan s).1.current_mode = .ITEM_SCANNED →
      (cancel_scan s).1.last_scanned_product ≠ none := by
  unfold cancel_scan
  repeat' split
  all_goals first | exact h | simp

/-- `_enter_cart_mode` leaves the session in `CART_REVIEW`. -/
theorem enter_cart_mode_inv (s : AppState) :
    (enter_cart_mode s).1.current_mode = .ITEM_SCANNED →
      (enter_cart_mode s).1.last_scanned_product ≠ none := by
  unfold enter_cart_mode
  repeat' split
  all_goals simp

/-- `_exit_cart_mode` leaves the session in `SCANNING`. -/
theorem exit_cart_mode_inv (s : AppState) :
    (exit_cart_mode s).1.current_mode = .ITEM_SCANNED →
      (exit_cart_mode s).1.last_scanned_product ≠ none := by
  unfold exit_cart_mode
  simp

/-- `_clear_cart` preserves the pending-item invariant. -/
theorem clear_cart_inv (s : AppState)
    (h : s.current_mode = .ITEM_SCANNED → s.last_scanned_product ≠ none) :
    (clear_cart s).1.current_mode = .ITEM_SCANNED →
      (clear_cart s).1.last_scanned_product ≠ none := by
  unfold clear_cart
  repeat' split
  all_goals first | exact h | simp

/-- The normal button dispatch preserves the pending-item invariant. -/
theorem normal_button_inv (s : AppState) (b : String) (long : Bool)
    (h : s.current_mode = .ITEM_SCANNED → s.last_scanned_product ≠ none) :
    (normal_button s b long).1.current_mode = .ITEM_SCANNED →
      (normal_button s b long).1.last_scanned_product ≠ none := by
  unfold normal_button
  repeat' split
  all_goals
    first
      | exact add_item_to_cart_inv s h
      | exact cancel_scan_inv s h
      | exact enter_cart_mode_inv s
      | exact exit_cart_mode_inv s
      | (rw [speak_ingredients_state]; exact h)
      | (rw [speak_allergens_state]; exact h)
      | exact h
      | simp

/-- The state component of `handle_button_press`, with the confirmation
dispatch unfolded. -/
theorem handle_button_press_fst (s : AppState) (b : String) (long : Bool) :
    (handle_button_press s b long).1 =
      (match s.confirm_action with
       | some pending =>
         if pending = .REMOVE ∧ b = "BACK_CANCEL" then
           (remove_cart_item (reset_confirm_state s)).1
         else if pending = .CLEAR ∧ b = "HELP_CLEAR" then
           (clear_cart (reset_confirm_state s)).1
         else
           (normal_button (reset_confirm_state s) b long).1
       | none => (normal_button s b long).1) := by
  unfold handle_button_press
  cases s.confirm_action with
  | none => rfl
  | some pending => dsimp only; split_ifs <;> rfl

/-- `handle_button_press` preserves the pending-item invariant. -/
theorem handle_button_press_inv (s : AppState) (b : String) (long : Bool)
    (h : s.current_mode = .ITEM_SCANNED → s.last_scanned_product ≠ none) :
    (handle_button_press s b long).1.current_mode = .ITEM_SCANNED →
      (handle_button_press s b long).1.last_scanned_product ≠ none := by
  rw [handle_button_press_fst]
  cases hc : s.confirm_action with
  | none => exact normal_button_inv s b long h
  | some pending =>
    dsimp only
    split_ifs
    · rw [(remove_cart_item_fields (reset_confirm_state s)).1,
          (remove_cart_item_fields (reset_confirm_state s)).2.1]
      exact h
    · exact clear_cart_inv (reset_confirm_state s) h
    · exact normal_button_inv (reset_confirm_state s) b long h

/-- `handle_dial_change` preserves the pending-item invariant. -/
theorem handle_dial_change_inv (s : AppState) (d : String)
    (h : s.current_mode = .ITEM_SCANNED → s.last_scanned_product ≠ none) :
    (handle_dial_change s d).1.current_mode = .ITEM_SCANNED →
      (handle_dial_change s d).1.last_scanned_product ≠ none := by
  unfold handle_dial_change
  repeat' split
  all_goals
    first
      | (rw [(navigate_cart_fields s d).1, (navigate_cart_fields s d).2.2.1]; exact h)
      | exact h

/-- The capture-loop barcode processing preserves the pending-item
invariant: whenever it switches the mode to `ITEM_SCANNED` it installs a
pending item in the same locked block. -/
theorem process_scan_barcode_inv (s : AppState) (b : String)
    (oc : LookupOutcome) (now : Nat)
    (h : s.current_mode = .ITEM_SCANNED → s.last_scanned_product ≠ none) :
    (process_scan_barcode s b oc now).1.current_mode = .ITEM_SCANNED →
      (process_scan_barcode s b oc now).1.last_scanned_product ≠ none := by
  unfold process_scan_barcode
  repeat' split
  all_goals
    first
      | exact h
      | (rcases hf : (lookup_barcode b oc).found <;> simp [hf])
      | simp

/-- Every session event preserves the pending-item invariant. -/
theorem session_step_inv (s : AppState) (e : SessionEvent)
    (h : s.current_mode = .ITEM_SCANNED → s.last_scanned_product ≠ none) :
    (session_step s e).1.current_mode = .ITEM_SCANNED →
      (session_step s e).1.last_scanned_product ≠ none := by
  cases e with
  | button b long => exact handle_button_press_inv s b long h
  | dial d => exact handle_dial_change_inv s d h
  | scan b oc now => exact process_scan_barcode_inv s b oc now h
  | confirm_timeout => exact h

/-- Spoken texts of a handler trace that wraps helper calls in one
acquire/release pair. -/
theorem spokenEv_wrap (l : List ExtCall) :
    spokenEv (Ev.acq :: l.map Ev.ext ++ [Ev.rel]) = spoken l := by
  induction l with
  | nil => rfl
  | cons c cs ih =>
    cases c <;> simpa [spokenEv, spoken] using ih

/-- With a pending `REMOVE` confirmation, pressing `BACK_CANCEL` runs
`_remove_cart_item` on the confirmation-cleared state. -/
theorem handle_button_press_remove (s : AppState) (long : Bool)
    (hk : s.confirm_action = some .REMOVE) :
    handle_button_press s "BACK_CANCEL" long =
      ((remove_cart_item (reset_confirm_state s)).1,
       Ev.acq :: (remove_cart_item (reset_confirm_state s)).2.map Ev.ext ++ [Ev.rel]) := by
  unfold handle_button_press
  rw [hk]
  dsimp only
  rw [if_pos (And.intro rfl rfl)]

/-- With a pending confirmation and a button that matches neither
destructive action, `handle_button_press` clears the confirmation,
announces the cancellation and processes the button normally. -/
theorem handle_button_press_nonmatching (s : AppState) (b : String) (long : Bool)
    (k : ConfirmKind) (hk : s.confirm_action = some k)
    (h1 : ¬(k = .REMOVE ∧ b = "BACK_CANCEL"))
    (h2 : ¬(k = .CLEAR ∧ b = "HELP_CLEAR")) :
    (handle_button_press s b long).1
      = (normal_button (reset_confirm_state s) b long).1 := by
  rw [handle_button_press_fst, hk]
  dsimp only
  rw [if_neg h1, if_neg h2]

/-- The dial handler never touches the pending confirmation. -/
theorem handle_dial_change_confirm (s : AppState) (d : String) :
    (handle_dial_change s d).1.confirm_action = s.confirm_action := by
  unfold handle_dial_change
  dsimp only
  split
  · exact (navigate_cart_fields s d).2.2.2.2
  · rfl

/-- `_cancel_scan` leaves the cart unchanged. -/
theorem cancel_scan_cart (s : AppState) :
    (cancel_scan s).1.shopping_cart = s.shopping_cart := by
  unfold cancel_scan
  split <;> rfl

/-- `_enter_cart_mode` leaves the cart unchanged. -/
theorem enter_cart_mode_cart (s : AppState) :
    (enter_cart_mode s).1.shopping_cart = s.shopping_cart := by
  unfold enter_cart_mode
  split <;> rfl

/-- `_add_item_to_cart` only ever appends to the cart. -/
theorem add_item_to_cart_cart_extends (s : AppState) :
    ∃ t, (add_item_to_cart s).1.shopping_cart = s.shopping_cart ++ t := by
  unfold add_item_to_cart
  repeat' split
  all_goals first
    | exact ⟨[], (List.append_nil _).symm⟩
    | exact ⟨_, rfl⟩

set_option maxHeartbeats 1000000 in
/-- The normal button dispatch only ever appends to the cart: no button
press removes or clears without going through a pending confirmation. -/
theorem normal_button_cart_extends (s : AppState) (b : String) (long : Bool) :
    ∃ t, (normal_button s b long).1.shopping_cart = s.shopping_cart ++ t := by
  rcases hnb : normal_button s b long with ⟨s1, ev⟩
  unfold normal_button at hnb
  repeat' split at hnb
  all_goals try (injection hnb with h1 h2; subst h1)
  all_goals try exact ⟨[], (List.append_nil _).symm⟩
  all_goals
    have hfst := congrArg Prod.fst hnb
  all_goals
    first
      | (rw [← hfst]; exact add_item_to_cart_cart_extends s)
      | (refine ⟨[], ?_⟩
         rw [← hfst]
         simp [cancel_scan_cart, enter_cart_mode_cart, exit_cart_mode,
               speak_ingredients_state, speak_allergens_state])

/-- `List.get?` succeeds below the length, returning the `getD` value. -/
theorem get?_eq_some_getD (l : List Item) (n : Nat) (h : n < l.length) :
    l.get? n = some (l.getD n default) := by
  rw [List.getD_eq_get?]
  rcases hq : l.get? n with _ | a
  · rw [List.get?_eq_get h] at hq
    cases hq
  · rfl

/-- `_speak_current_item_name` with a valid cursor announces the item at
the cursor and changes nothing. -/
theorem speak_current_item_name_spec (s : AppState)
    (hm : s.current_mode = .CART_REVIEW) (h0 : 0 ≤ s.cart_index)
    (hlt : s.cart_index < (s.shopping_cart.length : Int)) :
    speak_current_item_name s
      = (s, [.speakCall ("Item " ++ toString (s.cart_index + 1) ++ ": "
          ++ (s.shopping_cart.getD s.cart_index.toNat default).name)]) := by
  have htoNat : s.cart_index.toNat < s.shopping_cart.length := by omega
  have hne : s.shopping_cart ≠ [] := by
    intro hnil
    rw [hnil] at htoNat
    simp at htoNat
  unfold speak_current_item_name
  rw [if_neg (by simp [hm, hne]; omega), get?_eq_some_getD _ _ htoNat]

/-- The announce step of `_navigate_cart` is state-neutral when the cursor
is in range (the `IndexError` recovery path is unreachable). -/
theorem navigate_announce_in_range (s : AppState) (h0 : 0 ≤ s.cart_index)
    (hlt : s.cart_index < (s.shopping_cart.length : Int)) :
    (navigate_announce s).1 = s := by
  unfold navigate_announce
  rw [get?_eq_some_getD s.shopping_cart s.cart_index.toNat (by omega)]

/-- In `CART_REVIEW` with a non-empty cart, `navigate("next")` moves the
cursor to `(cursor + 1) % len` and changes nothing else. -/
theorem navigate_cart_next_state (s : AppState)
    (hm : s.current_mode = .CART_REVIEW) (hc : s.shopping_cart ≠ []) :
    (navigate_cart s "next").1
      = { s with cart_index := (s.cart_index + 1) % (s.shopping_cart.length : Int) } := by
  have hn : 0 < (s.shopping_cart.length : Int) := by
    have := List.length_pos.mpr hc
    omega
  unfold navigate_cart
  rw [if_neg (by simp [hm, hc]), if_pos rfl]
  exact navigate_announce_in_range _ (Int.emod_nonneg _ (by omega))
    (Int.emod_lt_of_pos _ hn)

/-- In `CART_REVIEW` with a non-empty cart, `navigate("previous")` moves
the cursor to `(cursor - 1) % len` and changes nothing else. -/
theorem navigate_cart_previous_state (s : AppState)
    (hm : s.current_mode = .CART_REVIEW) (hc : s.shopping_cart ≠ []) :
    (navigate_cart s "previous").1
      = { s with cart_index := (s.cart_index - 1) % (s.shopping_cart.length : Int) } := by
  have hn : 0 < (s.shopping_cart.length : Int) := by
    have := List.length_pos.mpr hc
    omega
  unfold navigate_cart
  rw [if_neg (by simp [hm, hc]), if_neg (by decide), if_pos rfl]
  exact navigate_announce_in_range _ (Int.emod_nonneg _ (by omega))
    (Int.emod_lt_of_pos _ hn)

/-- Taking one step forward and one step back modulo a positive length
returns to an in-range cursor. -/
theorem emod_roundtrip (i n : Int) (h0 : 0 ≤ i) (hlt : i < n) :
    ((i + 1) % n - 1) % n = i := by
  have h1 : ((i + 1) % n - 1) % n = ((i + 1) - 1) % n := by
    rw [Int.sub_emod, Int.emod_emod_of_dvd _ dvd_rfl, ← Int.sub_emod]
  rw [h1, add_sub_cancel_right]
  exact Int.emod_eq_of_lt h0 hlt

/-- Full behaviour of `_remove_cart_item` on a `CART_REVIEW` state with a
valid cursor: the item at the cursor is removed; an emptied cart resets
the cursor to −1 and is announced; otherwise the cursor is clamped to
`min cursor (newLength - 1)` and the item now at the cursor is
announced after the removal announcement. -/
theorem remove_cart_item_spec (s : AppState)
    (hm : s.current_mode = .CART_REVIEW)
    (h0 : 0 ≤ s.cart_index)
    (hlt : s.cart_index < (s.shopping_cart.length : Int)) :
    (remove_cart_item s).1.shopping_cart
        = s.shopping_cart.eraseIdx s.cart_index.toNat ∧
    (s.shopping_cart.eraseIdx s.cart_index.toNat = [] →
      (remove_cart_item s).1.cart_index = -1 ∧
      spoken (remove_cart_item s).2 =
        ["Removed " ++ (s.shopping_cart.getD s.cart_index.toNat default).name ++ ".",
         "Cart is now empty."]) ∧
    (s.shopping_cart.eraseIdx s.cart_index.toNat ≠ [] →
      (remove_cart_item s).1.cart_index
          = min s.cart_index
              (((s.shopping_cart.eraseIdx s.cart_index.toNat).length : Int) - 1) ∧
      spoken (remove_cart_item s).2 =
        ["Removed " ++ (s.shopping_cart.getD s.cart_index.toNat default).name ++ ".",
         "Item "
           ++ toString (min s.cart_index
                (((s.shopping_cart.eraseIdx s.cart_index.toNat).length : Int) - 1) + 1)
           ++ ": "
           ++ ((s.shopping_cart.eraseIdx s.cart_index.toNat).getD
                 (min s.cart_index
                   (((s.shopping_cart.eraseIdx s.cart_index.toNat).length : Int) - 1)).toNat
                 default).name]) := by
  have htoNat : s.cart_index.toNat < s.shopping_cart.length := by omega
  have hne : s.shopping_cart ≠ [] := by
    intro hnil
    rw [hnil] at htoNat
    simp at htoNat
  unfold remove_cart_item
  rw [if_neg (by simp [hm, hne]; omega), get?_eq_some_getD _ _ htoNat]
  dsimp only
  by_cases hz : s.shopping_cart.eraseIdx s.cart_index.toNat = []
  · rw [if_pos (by simp [hz])]
    exact ⟨rfl, fun _ => ⟨rfl, by simp [spoken]⟩, fun hcon => absurd hz hcon⟩
  · have hlen : 0 < (s.shopping_cart.eraseIdx s.cart_index.toNat).length :=
      List.length_pos.mpr hz
    rw [if_neg (by omega)]
    by_cases hcl : ((s.shopping_cart.eraseIdx s.cart_index.toNat).length : Int)
        ≤ s.cart_index
    · have hmin : min s.cart_index
          (((s.shopping_cart.eraseIdx s.cart_index.toNat).length : Int) - 1)
          = ((s.shopping_cart.eraseIdx s.cart_index.toNat).length : Int) - 1 :=
        min_eq_right (by omega)
      rw [if_pos hcl,
        speak_current_item_name_spec _ (by exact hm)
          (by exact (by omega :
            (0:Int) ≤ ((s.shopping_cart.eraseIdx s.cart_index.toNat).length : Int) - 1))
          (by exact (by omega :
            ((s.shopping_cart.eraseIdx s.cart_index.toNat).length : Int) - 1
              < ((s.shopping_cart.eraseIdx s.cart_index.toNat).length : Int)))]
      refine ⟨rfl, fun hcon => absurd hcon hz, fun _ => ⟨?_, ?_⟩⟩
      · rw [hmin]
      · rw [hmin]
        simp [spoken]
    · have hmin : min s.cart_index
          (((s.shopping_cart.eraseIdx s.cart_index.toNat).length : Int) - 1)
          = s.cart_index :=
        min_eq_left (by omega)
      rw [if_neg hcl,
        speak_current_item_name_spec _ (by exact hm)
          (by exact h0)
          (by exact (by omega :
            s.cart_index < ((s.shopping_cart.eraseIdx s.cart_index.toNat).length : Int)))]
      refine ⟨rfl, fun hcon => absurd hcon hz, fun _ => ⟨?_, ?_⟩⟩
      · rw [hmin]
      · rw [hmin]
        simp [spoken]

/-- The capture-loop barcode processing treats a resolver transport
failure exactly like an API "not found": both return `found = False`, and
the not-found branch of `generate_frames` reads nothing else from the
resolver result. -/
theorem process_scan_outcome_blind (s : AppState) (b e : String) (now : Nat) :
    process_scan_barcode s b (.requestException e) now
      = process_scan_barcode s b .apiNotFound now := rfl

/-- A trace of external calls wrapped in one acquire/release pair keeps
every external call under the lock. -/
theorem allExternals_wrapped (l : List ExtCall) :
    allExternalsUnderLock 0 (Ev.acq :: l.map Ev.ext ++ [Ev.rel]) = true := by
  have step : ∀ (l : List ExtCall) (d : Nat), 0 < d →
      allExternalsUnderLock d (l.map Ev.ext ++ [Ev.rel]) = true := by
    intro l
    induction l with
    | nil =>
      intro d _
      simp [allExternalsUnderLock]
    | cons c cs ih =>
      intro d hd
      simpa [allExternalsUnderLock, isExternal, hd] using ih d hd
  simpa [allExternalsUnderLock] using step l 1 (by omega)

/-- Over a strict alternation of two distinct codes, starting from any
state not tracking the first code, the verifier never emits: each frame
replaces the candidate with consecutive count 1. -/
theorem run_verify_alt (n : Nat) :
    ∀ (x y t : String) (s : ScannerState), x ≠ y → s.last_barcode ≠ some x →
      (run_verify s (alt_frames x y t n)).2 = [] := by
  induction n with
  | zero =>
    intro x y t s _ _
    simp [alt_frames, run_verify]
  | succ n ih =>
    intro x y t s hxy hl
    rw [alt_frames]
    simp only [run_verify, verify_barcode_switch x t 0 s hl]
    exact ih y x t _ (Ne.symm hxy) (by simpa using hxy)

/-- The `SCANNING`-mode, fresh-barcode, not-in-cart path of the capture
loop installs the `'Product Not Found'` pending item when the lookup does
not find the product. -/
theorem process_scan_not_found_state (s : AppState) (b : String) (now : Nat)
    (hm : s.current_mode = Mode.SCANNING) (hp : b ∉ s.processed_barcodes)
    (hf : s.shopping_cart.find? (fun item => item.barcode = b) = none) :
    (process_scan_barcode s b .apiNotFound now).1
      = { s with processed_barcodes := s.processed_barcodes ++ [b],
                 last_scanned_product := some
                   { barcode := b, name := "Product Not Found", brand := "",
                     allergens := [], ingredients := "", timestamp := now },
                 current_mode := Mode.ITEM_SCANNED } := by
  unfold process_scan_barcode
  rw [if_neg (by simp [hm]), if_neg (by simp [hm]), if_pos hp, hf]
  rfl

/-- `_add_item_to_cart` rejects a pending item named `'Product Not Found'`
without any state change. -/
theorem add_item_not_found_reject (s : AppState) (it : Item)
    (hm : s.current_mode = Mode.ITEM_SCANNED)
    (hp : s.last_scanned_product = some it)
    (hname : it.name = "Product Not Found") :
    add_item_to_cart s = (s, [.speakCall "Cannot add unknown product."]) := by
  unfold add_item_to_cart
  rw [hp]
  dsimp only
  rw [if_neg (by simp [hm]), if_pos hname]

/-! ## Claim theorems -/

/-- C1 counterexample: the claimed "pending item set iff mode is
ITEM_PENDING" invariant fails on a reachable state — after scanning a
found product (mode `ITEM_SCANNED`, pending item set) and pressing
`MODE_TOGGLE`, the mode is `CART_REVIEW` but `last_scanned_product` is
still set: `_enter_cart_mode` never clears it. -/
theorem c1_pending_iff_counterexample :
    (run_session initState
        [.scan "111" outcomeApple 0, .button "MODE_TOGGLE" false]).1.current_mode
      = Mode.CART_REVIEW ∧
    (run_session initState
        [.scan "111" outcomeApple 0, .button "MODE_TOGGLE" false]).1.last_scanned_product
      = some itemApple := by
  constructor <;> decide

/-- C1 (amended): in every reachable session state, if the mode is
`ITEM_SCANNED` then a pending item is set; the converse direction of the
claimed iff does not hold (the pending item survives `enterCartReview` /
`exitCartReview` as the "most recently scanned" item). -/
theorem c1_pending_mode_invariant (s : AppState) (hr : Reachable s) :
    s.current_mode = Mode.ITEM_SCANNED → s.last_scanned_product ≠ none := by
  induction hr with
  | init => intro hm; simp [initState] at hm
  | step s e hr ih => exact session_step_inv s e ih

/-- Witness for C1: a concrete reachable `ITEM_SCANNED` state has its
pending item set. -/
theorem c1_pending_mode_invariant_witness :
    (session_step initState (.scan "111" outcomeApple 0)).1.last_scanned_product
      ≠ none :=
  c1_pending_mode_invariant _
    (Reachable.step initState (.scan "111" outcomeApple 0) Reachable.init) (by decide)

/-- C2 counterexample: holding a single code steadily for 6 frames
(≥ `min_consecutive_detections` consecutive detections, no other code, no
missed frame) makes `verify_barcode` emit twice, not exactly once: it
re-arms immediately after each emission and keeps tracking the same
candidate. -/
theorem c2_exactly_once_counterexample :
    min_consecutive_detections ≤ 6 ∧
    (run_verify initScanner (hold_frames "X" "EAN13" 6)).2.length = 2 := by
  constructor <;> decide

/-- C2 (amended): during a continuous steady hold of code `x` for `n`
frames the verifier emits `VerifiedScan(x)` once every
`min_consecutive_detections` frames — `n / min_consecutive_detections`
emissions in total — re-arming immediately after each emission; the hold
produces exactly one emission iff `min_consecutive_detections ≤ n <
2 * min_consecutive_detections`.  Once-per-hold deduplication is left to
downstream consumers. -/
theorem c2_hold_emission_count (x t : String) (n : Nat) :
    (run_verify initScanner (hold_frames x t n)).2
        = List.replicate (n / min_consecutive_detections) ⟨x, t⟩ ∧
    ((run_verify initScanner (hold_frames x t n)).2.length = 1 ↔
      min_consecutive_detections ≤ n ∧ n < 2 * min_consecutive_detections) := by
  have hmain : (run_verify initScanner (hold_frames x t n)).2
      = List.replicate (n / min_consecutive_detections) ⟨x, t⟩ := by
    cases n with
    | zero => simp [hold_frames, run_verify]
    | succ n =>
      rw [hold_frames, List.replicate_succ]
      simp only [run_verify,
        verify_barcode_switch x t 0 initScanner (by simp [initScanner])]
      have h := run_verify_hold x t n
        { last_barcode := some x, last_barcode_time := 0,
          consecutive_detections := 1, no_detection_count := 0 } rfl
        (by simp [min_consecutive_detections])
      simp only [hold_frames] at h
      simp only [h, Nat.add_comm 1 n]
      simp
  refine ⟨hmain, ?_⟩
  rw [hmain, List.length_replicate]
  simp only [min_consecutive_detections]
  omega

/-- C3 counterexample: with a `REMOVE` confirmation armed, an intervening
dial-navigation action does not discard it — after the dial event the
confirmation is still pending and a later `BACK_CANCEL` press performs
the removal (of the item the cursor moved to). -/
theorem c3_dial_discards_counterexample :
    (run_session initState dial_after_arm_events).1.confirm_action
        = some ConfirmKind.REMOVE ∧
    (handle_button_press (run_session initState dial_after_arm_events).1
        "BACK_CANCEL" false).1.shopping_cart = [itemApple] := by
  constructor <;> decide

/-- C3 (amended): a pending confirmation is consumed by exactly one
subsequent *button press* — a non-matching button press processes the
button exactly as if no confirmation were pending (on the
confirmation-cleared state) and performs no removal (the cart can only be
extended) — but dial navigation neither consumes nor discards the pending
confirmation. -/
theorem c3_confirmation_button_consumption :
    (∀ (s : AppState) (d : String),
        (handle_dial_change s d).1.confirm_action = s.confirm_action) ∧
    (∀ (s : AppState) (b : String) (long : Bool) (k : ConfirmKind),
        s.confirm_action = some k →
        ¬(k = ConfirmKind.REMOVE ∧ b = "BACK_CANCEL") →
        ¬(k = ConfirmKind.CLEAR ∧ b = "HELP_CLEAR") →
        (handle_button_press s b long).1
            = (normal_button (reset_confirm_state s) b long).1 ∧
        ∃ t, (handle_button_press s b long).1.shopping_cart
            = s.shopping_cart ++ t) := by
  refine ⟨handle_dial_change_confirm, fun s b long k hk h1 h2 => ?_⟩
  have heq := handle_button_press_nonmatching s b long k hk h1 h2
  refine ⟨heq, ?_⟩
  rw [heq]
  exact normal_button_cart_extends (reset_confirm_state s) b long

/-- Witness for C3 (amended), at a concrete armed state. -/
theorem c3_confirmation_button_consumption_witness :
    (handle_dial_change review_remove_state "next").1.confirm_action
        = some ConfirmKind.REMOVE ∧
    (handle_button_press review_remove_state "MODE_TOGGLE" false).1
        = (normal_button (reset_confirm_state review_remove_state)
            "MODE_TOGGLE" false).1 :=
  ⟨(c3_confirmation_button_consumption.1 review_remove_state "next").trans rfl,
   (c3_confirmation_button_consumption.2 review_remove_state "MODE_TOGGLE" false
      ConfirmKind.REMOVE rfl (by decide) (by decide)).1⟩

/-- C4 (code evaluated at the failing input): after a code is acknowledged
while a scan is pending, the transition back to `SCANNING` (confirmAdd)
does not clear `processed_barcodes`, and re-scanning the same code during
the next pending period produces no announcement at all — the claim's
clearing-on-`SCANNING` behaviour is absent from the code. -/
theorem c4_ignored_codes_never_cleared :
    ((run_session initState (ignored_code_events.take 3)).1.current_mode
        = Mode.SCANNING ∧
     "222" ∈ (run_session initState (ignored_code_events.take 3)).1.processed_barcodes) ∧
    ((run_session initState ignored_code_events).1.current_mode
        = Mode.ITEM_SCANNED ∧
     spokenEv (session_step (run_session initState ignored_code_events).1
        (.scan "222" outcomeBread 3)).2 = []) := by
  refine ⟨⟨?_, ?_⟩, ?_, ?_⟩ <;> decide

/-- C5: with an armed (unexpired) `REMOVE` confirmation in `CART_REVIEW`
and a valid cursor, the confirming press removes exactly the item at the
cursor; if the cart becomes empty the cursor becomes −1 (undefined),
otherwise the cursor is clamped to `min cursor (len(cart) - 1)` of the
new cart and the item now at the cursor is announced. -/
theorem c5_confirm_remove_spec (s : AppState) (long : Bool)
    (hm : s.current_mode = Mode.CART_REVIEW)
    (hk : s.confirm_action = some ConfirmKind.REMOVE)
    (h0 : 0 ≤ s.cart_index)
    (hlt : s.cart_index < (s.shopping_cart.length : Int)) :
    (handle_button_press s "BACK_CANCEL" long).1.shopping_cart
        = s.shopping_cart.eraseIdx s.cart_index.toNat ∧
    (s.shopping_cart.eraseIdx s.cart_index.toNat = [] →
      (handle_button_press s "BACK_CANCEL" long).1.cart_index = -1) ∧
    (s.shopping_cart.eraseIdx s.cart_index.toNat ≠ [] →
      (handle_button_press s "BACK_CANCEL" long).1.cart_index
          = min s.cart_index
              (((s.shopping_cart.eraseIdx s.cart_index.toNat).length : Int) - 1) ∧
      spokenEv (handle_button_press s "BACK_CANCEL" long).2 =
        ["Removed " ++ (s.shopping_cart.getD s.cart_index.toNat default).name ++ ".",
         "Item "
           ++ toString (min s.cart_index
                (((s.shopping_cart.eraseIdx s.cart_index.toNat).length : Int) - 1) + 1)
           ++ ": "
           ++ ((s.shopping_cart.eraseIdx s.cart_index.toNat).getD
                 (min s.cart_index
                   (((s.shopping_cart.eraseIdx s.cart_index.toNat).length : Int) - 1)).toNat
                 default).name]) := by
  rw [handle_button_press_remove s long hk]
  have hspec := remove_cart_item_spec (reset_confirm_state s)
    (by exact hm) (by exact h0) (by exact hlt)
  exact ⟨hspec.1, fun hz => ((hspec.2.1 hz).1),
    fun hnz => ⟨(hspec.2.2 hnz).1, by rw [spokenEv_wrap]; exact (hspec.2.2 hnz).2⟩⟩

/-- Witness for C5: from cart `[Apple, Bread]` with cursor 1 and an armed
`REMOVE` confirmation, the confirming press yields cart `[Apple]`,
cursor 0, and announces `Apple`. -/
theorem c5_confirm_remove_spec_witness :
    (handle_button_press review_remove_state "BACK_CANCEL" false).1.shopping_cart
        = [itemApple] ∧
    (handle_button_press review_remove_state "BACK_CANCEL" false).1.cart_index = 0 ∧
    spokenEv (handle_button_press review_remove_state "BACK_CANCEL" false).2
        = ["Removed Bread.", "Item 1: Apple"] := by
  have h := c5_confirm_remove_spec review_remove_state false rfl rfl
    (by decide) (by decide)
  exact ⟨h.1.trans (by decide), ((h.2.2 (by decide)).1).trans (by decide),
         ((h.2.2 (by decide)).2).trans (by decide)⟩

/-- C6: `confirmAdd` outside `ITEM_SCANNED` mode is a strict no-op on the
state; and after scanning a barcode the catalog does not know, the
session is in `ITEM_SCANNED` with the `'Product Not Found'` pending item,
and `confirmAdd` announces the rejection and changes nothing — the mode
stays `ITEM_SCANNED` and the cart is unchanged. -/
theorem c6_confirm_add_rejections :
    (∀ s : AppState, s.current_mode ≠ Mode.ITEM_SCANNED →
        (add_item_to_cart s).1 = s) ∧
    (∀ (s : AppState) (b : String) (now : Nat),
        s.current_mode = Mode.SCANNING →
        b ∉ s.processed_barcodes →
        s.shopping_cart.find? (fun item => item.barcode = b) = none →
        (process_scan_barcode s b .apiNotFound now).1.current_mode
            = Mode.ITEM_SCANNED ∧
        (process_scan_barcode s b .apiNotFound now).1.shopping_cart
            = s.shopping_cart ∧
        (add_item_to_cart (process_scan_barcode s b .apiNotFound now).1).1
            = (process_scan_barcode s b .apiNotFound now).1 ∧
        spoken (add_item_to_cart (process_scan_barcode s b .apiNotFound now).1).2
            = ["Cannot add unknown product."]) := by
  constructor
  · intro s h
    unfold add_item_to_cart
    cases s.last_scanned_product <;> simp [h]
  · intro s b now hm hp hf
    rw [process_scan_not_found_state s b now hm hp hf,
        add_item_not_found_reject _ _ rfl rfl rfl]
    exact ⟨rfl, rfl, rfl, rfl⟩

/-- Witness for C6 at concrete states. -/
theorem c6_confirm_add_rejections_witness :
    (add_item_to_cart review_three_state).1 = review_three_state ∧
    (add_item_to_cart (process_scan_barcode initState "123" .apiNotFound 0).1).1
        = (process_scan_barcode initState "123" .apiNotFound 0).1 ∧
    spoken (add_item_to_cart (process_scan_barcode initState "123" .apiNotFound 0).1).2
        = ["Cannot add unknown product."] :=
  ⟨c6_confirm_add_rejections.1 review_three_state (by decide),
   (c6_confirm_add_rejections.2 initState "123" 0 rfl (by decide) (by decide)).2.2.1,
   (c6_confirm_add_rejections.2 initState "123" 0 rfl (by decide) (by decide)).2.2.2⟩

/-- C7: on a frame sequence strictly alternating between two distinct
codes, the verifier never emits — the candidate is replaced on every
frame, so the consecutive-hit counter never reaches
`min_consecutive_detections`. -/
theorem c7_alternating_never_verifies (x y t : String) (n : Nat) (hxy : x ≠ y) :
    (run_verify initScanner (alt_frames x y t n)).2 = [] :=
  run_verify_alt n x y t initScanner hxy (by simp [initScanner])

/-- Witness for C7 at two concrete distinct codes and nine frames. -/
theorem c7_alternating_never_verifies_witness :
    ("036000291452" : String) ≠ "012345678905" ∧
    (run_verify initScanner
        (alt_frames "036000291452" "012345678905" "EAN13" 9)).2 = [] :=
  ⟨by decide,
   c7_alternating_never_verifies "036000291452" "012345678905" "EAN13" 9 (by decide)⟩

/-- C8: in `CART_REVIEW` with a non-empty cart, `navigate("next")` sets
the cursor to `(i+1) mod n` and `navigate("previous")` to `(i-1) mod n`
(Python `%` = `Int.emod` for a positive modulus, wrapping at both ends);
`next` from the last index wraps to 0; and for an in-range cursor,
`next` followed by `previous` restores the original cursor. -/
theorem c8_navigate_wraps (s : AppState)
    (hm : s.current_mode = Mode.CART_REVIEW) (hc : s.shopping_cart ≠ []) :
    (navigate_cart s "next").1
        = { s with cart_index :=
              (s.cart_index + 1) % (s.shopping_cart.length : Int) } ∧
    (navigate_cart s "previous").1
        = { s with cart_index :=
              (s.cart_index - 1) % (s.shopping_cart.length : Int) } ∧
    (s.cart_index = (s.shopping_cart.length : Int) - 1 →
      (navigate_cart s "next").1.cart_index = 0) ∧
    (0 ≤ s.cart_index → s.cart_index < (s.shopping_cart.length : Int) →
      (navigate_cart (navigate_cart s "next").1 "previous").1.cart_index
        = s.cart_index) := by
  have h1 := navigate_cart_next_state s hm hc
  have h2 := navigate_cart_previous_state s hm hc
  refine ⟨h1, h2, ?_, ?_⟩
  · intro hlast
    rw [h1]
    dsimp only
    rw [hlast, sub_add_cancel]
    exact Int.emod_self
  · intro hi0 hilt
    rw [h1, navigate_cart_previous_state _ (by exact hm) (by exact hc)]
    exact emod_roundtrip s.cart_index _ hi0 hilt

/-- Witness for C8: on a three-item cart with the cursor on the last item,
`next` wraps to cursor 0, and `next` then `previous` restores cursor 2. -/
theorem c8_navigate_wraps_witness :
    (navigate_cart review_three_state "next").1.cart_index = 0 ∧
    (navigate_cart (navigate_cart review_three_state "next").1 "previous").1.cart_index
        = 2 := by
  have h := c8_navigate_wraps review_three_state rfl (by decide)
  exact ⟨h.2.2.1 (by decide), (h.2.2.2 (by decide) (by decide)).trans (by decide)⟩

/-- C9 counterexample: a resolver transport failure is *not*
distinguishable from "not found" at the session level — the capture loop
produces the identical state and identical trace (same
`'Product Not Found'` pending item, same "Product not found" announcement,
no error announcement) for an API not-found and for a network timeout. -/
theorem c9_transport_error_indistinguishable :
    process_scan_barcode initState "123" (.requestException "timeout") 0
        = process_scan_barcode initState "123" .apiNotFound 0 ∧
    spokenEv (process_scan_barcode initState "123" (.requestException "timeout") 0).2
        = ["Product not found for barcode 123"] := by
  exact ⟨rfl, by decide⟩

/-- C9 (amended): the resolver itself distinguishes transport failure
(`found = False`, `product_name = "Error"`) from not-found
(`product_name = "Product not found"`) and never throws; but the session
collapses both — `generate_frames` reads only the `found` flag, so a
transport failure yields exactly the not-found transition: mode
`ITEM_SCANNED`, pending item `'Product Not Found'`, and `confirmAdd` is
rejected the same way. -/
theorem c9_transport_error_collapsed :
    (∀ b e : String,
        (lookup_barcode b (.requestException e)).found = false ∧
        (lookup_barcode b (.requestException e)).product_name = "Error" ∧
        (lookup_barcode b .apiNotFound).product_name = "Product not found") ∧
    (∀ (s : AppState) (b e : String) (now : Nat),
        process_scan_barcode s b (.requestException e) now
          = process_scan_barcode s b .apiNotFound now) ∧
    (∀ (s : AppState) (b e : String) (now : Nat),
        s.current_mode = Mode.SCANNING → b ∉ s.processed_barcodes →
        s.shopping_cart.find? (fun item => item.barcode = b) = none →
        (process_scan_barcode s b (.requestException e) now).1.current_mode
            = Mode.ITEM_SCANNED ∧
        (process_scan_barcode s b (.requestException e) now).1.last_scanned_product
            = some { barcode := b, name := "Product Not Found", brand := "",
                     allergens := [], ingredients := "", timestamp := now } ∧
        (add_item_to_cart (process_scan_barcode s b (.requestException e) now).1).1
            = (process_scan_barcode s b (.requestException e) now).1) := by
  refine ⟨fun b e => ⟨rfl, rfl, rfl⟩,
          fun s b e now => process_scan_outcome_blind s b e now,
          fun s b e now hm hp hf => ?_⟩
  rw [process_scan_outcome_blind s b e now,
      process_scan_not_found_state s b now hm hp hf,
      add_item_not_found_reject _ _ rfl rfl rfl]
  exact ⟨rfl, rfl, rfl⟩

/-- Witness for C9 (amended) at a concrete barcode and error. -/
theorem c9_transport_error_collapsed_witness :
    (lookup_barcode "123" (.requestException "timeout")).product_name = "Error" ∧
    process_scan_barcode initState "123" (.requestException "timeout") 7
        = process_scan_barcode initState "123" .apiNotFound 7 ∧
    (add_item_to_cart
        (process_scan_barcode initState "123" (.requestException "timeout") 7).1).1
      = (process_scan_barcode initState "123" (.requestException "timeout") 7).1 :=
  ⟨(c9_transport_error_collapsed.1 "123" "timeout").2.1,
   c9_transport_error_collapsed.2.1 initState "123" "timeout" 7,
   (c9_transport_error_collapsed.2.2 initState "123" "timeout" 7 rfl
      (by decide) (by decide)).2.2⟩

/-- C10 counterexample: the capture loop does hold `state_lock` across
external calls — processing a fresh barcode in `SCANNING` mode performs
the resolver lookup and the announcement between the second lock acquire
and its release. -/
theorem c10_lookup_under_lock_counterexample :
    (process_scan_barcode initState "123" outcomeApple 0).2
        = [Ev.acq, Ev.rel, Ev.acq, Ev.ext (.lookupCall "123"),
           Ev.ext (.speakCall "Found Apple by Acme"), Ev.rel] ∧
    externalHeldUnderLock 0
        (process_scan_barcode initState "123" outcomeApple 0).2 = true := by
  constructor <;> decide

/-- C10 (amended): the code follows the opposite discipline from the
claim — every external call (resolver lookup, announcements, save/track)
made by the button handler, the dial handler and the capture-loop barcode
processing happens while `state_lock` is held, never before acquiring or
after releasing it. -/
theorem c10_all_externals_under_lock :
    (∀ (s : AppState) (b : String) (long : Bool),
        allExternalsUnderLock 0 (handle_button_press s b long).2 = true) ∧
    (∀ (s : AppState) (d : String),
        allExternalsUnderLock 0 (handle_dial_change s d).2 = true) ∧
    (∀ (s : AppState) (b : String) (oc : LookupOutcome) (now : Nat),
        allExternalsUnderLock 0 (process_scan_barcode s b oc now).2 = true) := by
  refine ⟨fun s b long => allExternals_wrapped _,
          fun s d => allExternals_wrapped _,
          fun s b oc now => ?_⟩
  unfold process_scan_barcode
  repeat' split
  all_goals first
    | rfl
    | (dsimp only
       rcases hv : (lookup_barcode b oc).found <;>
         simp [hv, allExternalsUnderLock, isExternal])

end SmartKart
